import Mathlib

/-!
Shallow embedding of the Pychain client library (src/provider.py, src/contract.py,
src/txmanager.py, src/wallet.py, src/utils/validators.py) and proofs about it.

Machine-level effects (network transports, the filesystem, the external
web3/eth_account libraries) are modelled as explicit environment parameters;
the control flow, state mutation and error propagation of the repository's own
code are translated statement by statement.  Definitions come first, then the
theorems about them.
-/

namespace Pychain

/-! ## Connection manager (src/provider.py)

`Provider.__init__` stores `rpc_urls`, sets `_current_provider_index = 0` and
`_w3 = None`, then calls `connect()`.

`Provider.connect` reads `rpc_urls[_current_provider_index]`, builds a transport
and a `Web3` handle, assigns it to `self._w3`, and only afterwards tests
`isconnected()`; any exception in that block (including the `ConnectionError`
raised on a failed liveness test) is caught and routed to `failover()`.
`Provider.failover` increments `_current_provider_index` and recurses into
`connect()` while the index is not the last one, else raises
`ConnectionError("All RPC endpoints failed")`.

The outcome of attempting one endpoint is environment data: constructing the
transport/handle can raise (`openFail`, before `self._w3` is reassigned), the
liveness test can fail (`liveFail`, after `self._w3` is reassigned), or the
attempt succeeds (`ok`).  Python exceptions propagate while the mutated object
survives, so each operation returns the final state together with the
exception, if any, that escaped. -/

/-- Outcome of one connection attempt against one endpoint URL. -/
inductive Attempt where
  | openFail
  | liveFail
  | ok
deriving DecidableEq, Repr

/-- Errors that can escape `connect`/`failover`: the Python `IndexError` when
`rpc_urls` is empty, and `ConnectionError("All RPC endpoints failed")`. -/
inductive PErr where
  | indexError
  | exhausted
deriving DecidableEq, Repr

/-- Mutable state of one `Provider` instance: the endpoint list, the current
index `_current_provider_index`, and the handle `_w3` (modelled by the URL the
handle was opened against, `none` before any assignment). -/
structure PState where
  rpcUrls : List String
  idx : Nat
  w3 : Option String
deriving DecidableEq, Repr

/-- `Provider.connect`, with `Provider.failover`'s body inlined at the two
call sites (after `except`, the source calls `self.failover()`; the lemmas
`connect_openFail` and `connect_liveFail` below restate those branches through
the separate `failover` definition).  On a liveness failure `_w3` has already
been reassigned to the failed attempt's handle when `failover` runs. -/
def connect (env : String → Attempt) (s : PState) : PState × Option PErr :=
  if h : s.idx < s.rpcUrls.length then
    let url := s.rpcUrls[s.idx]
    match env url with
    | .ok => ({ s with w3 := some url }, none)
    | .openFail =>
      if s.idx + 1 < s.rpcUrls.length then
        connect env { s with idx := s.idx + 1 }
      else (s, some .exhausted)
    | .liveFail =>
      if s.idx + 1 < s.rpcUrls.length then
        connect env { s with idx := s.idx + 1, w3 := some url }
      else ({ s with w3 := some url }, some .exhausted)
  else (s, some .indexError)
termination_by s.rpcUrls.length - s.idx
decreasing_by all_goals omega

/-- `Provider.failover`: if the current index is not the last one, increment it
and recurse into `connect`; otherwise raise `ConnectionError`.  The Python
guard `_current_provider_index < len(rpc_urls) - 1` is `idx + 1 < length`
(both sides agree for every length, including 0). -/
def failover (env : String → Attempt) (s : PState) : PState × Option PErr :=
  if s.idx + 1 < s.rpcUrls.length then
    connect env { s with idx := s.idx + 1 }
  else (s, some PErr.exhausted)

/-- Initial state of `Provider.__init__` (before the constructor's own
`connect()` call): index 0, no handle. -/
def initState (rpcUrls : List String) : PState :=
  { rpcUrls := rpcUrls, idx := 0, w3 := none }

/-- The spec's connection-manager invariant: whenever a handle is installed,
the active index is in range. -/
def Inv (s : PState) : Prop :=
  s.w3.isSome = true → s.idx < s.rpcUrls.length

instance (s : PState) : Decidable (Inv s) := by
  unfold Inv; infer_instance

/-- One externally triggered operation on a provider: a `connect()` call or a
`failover()` call, each under the endpoint behaviour it encounters. -/
inductive POp where
  | connectOp (env : String → Attempt)
  | failoverOp (env : String → Attempt)

/-- Final state of one operation (the mutated `self`, whether or not an
exception escaped). -/
def applyOp : POp → PState → PState
  | .connectOp env, s => (connect env s).1
  | .failoverOp env, s => (failover env s).1

/-- Final state after a sequence of operations inside one manager lifetime. -/
def runOps (ops : List POp) (s : PState) : PState :=
  ops.foldl (fun t o => applyOp o t) s

/-! ## Signer (src/wallet.py, src/utils/validators.py) -/

/-- An unsigned transaction request (`src/txmanager.py` passes these as plain
dicts; the nonce is the one optional field the spec discusses). -/
structure TxRequest where
  recipient : String
  value : Int
  gas : Int
  gasPrice : Int
  nonce : Option Int
deriving DecidableEq, Repr

/-- The object `account.sign_transaction` returns: the signed fields, the raw
signed bytes and the derived transaction hash. -/
structure SignedTx where
  tx : TxRequest
  rawTransaction : String
  hash : String
deriving DecidableEq, Repr

/-- External `eth_account` behaviour (not repository code): address derivation,
fresh key generation, keystore encryption, raw signing and transaction
hashing. -/
structure AccountEnv where
  addressOf : String → String
  freshKey : String
  encrypt : String → String → String
  raw : String → TxRequest → String
  hashOfRaw : String → String

/-- One character of the validator's hex alphabet (src/utils/validators.py). -/
def isHexChar (c : Char) : Bool :=
  "0123456789abcdefABCDEF".toList.contains c

/-- `validate_key` (src/utils/validators.py): raises
`ValueError("Key must be a valid hexadecimal string.")` unless every character
of the key is a hex digit; no other check (in particular, no length check).
The `isinstance(key, str)` branch is unrepresentable here because the argument
is typed. -/
def validate_key (key : String) : Except String Unit :=
  if key.toList.all isHexChar then Except.ok ()
  else Except.error "Key must be a valid hexadecimal string."

/-- The attribute state of a constructed `Wallet`: the account (modelled by its
key), the `private_key` attribute (`none` when the constructor never assigned
it), and the derived address. -/
structure WalletState where
  accountKey : String
  private_key : Option String
  address : String
deriving DecidableEq, Repr

/-- `Wallet.__init__`: with a truthy explicit key, validates it and builds the
account — the line `self.private_key = private_key` is commented out in the
source, so the attribute stays unassigned on this branch.  With no key (or the
falsy empty string), creates a fresh account and does assign
`self.private_key`. -/
def Wallet.init (env : AccountEnv) (private_key : Option String) : Except String WalletState :=
  match private_key with
  | some k =>
    if k.isEmpty then
      Except.ok { accountKey := env.freshKey, private_key := some env.freshKey,
                  address := env.addressOf env.freshKey }
    else
      match validate_key k with
      | Except.error e => Except.error e
      | Except.ok _ =>
        Except.ok { accountKey := k, private_key := none, address := env.addressOf k }
  | none =>
    Except.ok { accountKey := env.freshKey, private_key := some env.freshKey,
                address := env.addressOf env.freshKey }

/-- `Wallet.sign_transaction`: delegates to `account.sign_transaction` and
returns the signed object unchanged. -/
def Wallet.sign_transaction (env : AccountEnv) (w : WalletState) (transaction : TxRequest) :
    SignedTx :=
  let rawBytes := env.raw w.accountKey transaction
  { tx := transaction, rawTransaction := rawBytes, hash := env.hashOfRaw rawBytes }

/-- `Wallet.export_key`: reads `self.private_key` (an `AttributeError` escapes
if the constructor never assigned it), encrypts it with the password, writes
the result to `path` and returns `path`.  The produced file content and the
returned path are both reported. -/
def export_key (env : AccountEnv) (w : WalletState) (password : String) (path : String) :
    Except String (String × String) :=
  match w.private_key with
  | none => Except.error "AttributeError: Wallet object has no attribute private_key"
  | some pk => Except.ok (env.encrypt pk password, path)

/-! ## Transaction pipeline (src/txmanager.py)

Both `get_nonce` and `send_transaction` reach the node through
`self.provider.web3`, but the repository's `Provider` class only defines the
`w3` property (provider.py:126) and no `web3` attribute, so that access raises
`AttributeError` unconditionally — before any transaction count is fetched and
before any raw transaction is submitted. -/

/-- The exception `self.provider.web3` raises (txmanager.py lines 53 and 59):
the `Provider` class has `w3`, not `web3`. -/
def providerWeb3Error : String :=
  "AttributeError: Provider object has no attribute web3"

/-- Mutable state of one `TransactionManager`: the wallet, the constructor
flags, the nonce cache and the pending-transaction map (hash to status). -/
structure TxmState where
  wallet : WalletState
  auto_nonce : Bool
  confirm_blocks : Int
  nonce_cache : Option Int
  pending_txs : List (String × String)

/-- `TransactionManager.get_nonce`: in `auto_nonce` mode, returns the cached
nonce when `use_pending` is set and a cache exists; otherwise it attempts
`self.provider.web3.eth.get_transaction_count(...)`, which raises
`AttributeError` (there is no `web3` on `Provider`) instead of fetching a
count.  Outside `auto_nonce` mode returns `self.nonce_cache or 0` (falsy
`None` and `0` both give `0`). -/
def get_nonce (s : TxmState) (use_pending : Bool) : Except String Int :=
  if s.auto_nonce then
    match use_pending, s.nonce_cache with
    | true, some n => Except.ok n
    | _, _ => Except.error providerWeb3Error
  else Except.ok (s.nonce_cache.getD 0)

/-- `TransactionManager.send_transaction`: signs the given transaction dict
with the wallet, then crashes with `AttributeError` at
`self.provider.web3.eth.send_raw_transaction(...)` — nothing is submitted and
no hash is returned.  The method body touches neither the transaction's nonce
field nor `self.pending_txs` nor `self.nonce_cache`; the (unchanged) manager
state and the locally computed signed object are returned alongside the
escaping outcome so that claims about them are statable. -/
def send_transaction (env : AccountEnv) (s : TxmState) (transaction : TxRequest) :
    TxmState × SignedTx × Except String String :=
  let signed_tx := Wallet.sign_transaction env s.wallet transaction
  (s, signed_tx, Except.error providerWeb3Error)

/-! ## Schema dispatcher (src/contract.py) -/

/-- One interface-schema entry, with exactly the fields
`Contract.generate_methods` reads: `item.get("type")`, `item["name"]` and
`item.get("stateMutability", "")` (absence modelled by `none`). -/
structure AbiEntry where
  type : Option String
  name : String
  stateMutability : Option String
deriving DecidableEq, Repr

/-- What one generated method closes over: the schema entry and whether the
view-path wrapper (`self.call`) or the transaction wrapper (`self.send`) was
chosen for it. -/
structure Binding where
  entry : AbiEntry
  view : Bool
deriving DecidableEq, Repr

/-- `state_mutability in ["view", "pure"]`. -/
def is_view (state_mutability : String) : Bool :=
  state_mutability = "view" || state_mutability = "pure"

/-- `Contract.generate_methods`: walks the schema in order; skips entries whose
`type` is not `"function"`; skips an entry when `hasattr(self, func_name)` —
the name is a pre-existing attribute (`reserved`) or was bound by an earlier
iteration (`bound`); otherwise `setattr`s a view or transaction wrapper chosen
by the entry's mutability.  `bound` accumulates the instance attributes the
loop has set. -/
def generate_methods (reserved : List String) :
    List AbiEntry → List (String × Binding) → List (String × Binding)
  | [], bound => bound
  | item :: rest, bound =>
    if item.type ≠ some "function" then
      generate_methods reserved rest bound
    else if reserved.contains item.name || (bound.map Prod.fst).contains item.name then
      generate_methods reserved rest bound
    else
      generate_methods reserved rest
        (bound ++ [(item.name,
          { entry := item, view := is_view (item.stateMutability.getD "") })])

/-- The attributes a `Contract` instance has before `generate_methods` runs:
the instance attributes set earlier in `__init__` and the class's own
methods. -/
def contractReserved : List String :=
  ["address", "abi", "provider", "_contract",
   "generate_methods", "call", "send", "estimate_gas", "from_config"]

/-- What Python attribute lookup on the contract object yields after method
generation: a generated wrapper (instance attribute) shadows nothing — a name
is bound at most once — and otherwise a pre-existing attribute is found. -/
inductive Attr where
  | preexisting (name : String)
  | generated (b : Binding)
deriving DecidableEq, Repr

/-- `getattr(contract, name)` after `generate_methods`. -/
def getattrContract (reserved : List String) (bound : List (String × Binding))
    (name : String) : Option Attr :=
  match bound.lookup name with
  | some b => some (Attr.generated b)
  | none => if reserved.contains name then some (Attr.preexisting name) else none

/-- Transaction fields `Contract.send` builds before signing (`from`, gas with
its 200000 default, gas price defaulted from the provider, the freshly fetched
nonce, and the value). -/
structure BuiltTx where
  sender : String
  gas : Int
  gasPrice : Int
  nonce : Int
  value : Int
deriving DecidableEq, Repr

/-- `ValueError("Signer (private key) required for transactions")`. -/
inductive SendErr where
  | missingSigner
deriving DecidableEq, Repr

/-- Result of one dispatched invocation: a decoded read value or a transaction
hash. -/
inductive CallResult where
  | value (v : Int)
  | txHash (h : String)
deriving DecidableEq, Repr

/-- External behaviour behind the dispatcher: decoded `call()` results, the
provider's gas price and transaction count, address derivation for a key, and
the hash returned for a signed submission. -/
structure DispatchEnv where
  callResult : String → List Int → Int
  gas_price : Int
  transaction_count : String → Int
  addressOfKey : String → String
  rawTxHash : String → List Int → BuiltTx → String

/-- `Contract.call`: resolves the function, executes it read-only, returns the
decoded result. -/
def Contract.call (env : DispatchEnv) (function_name : String) (args : List Int) : Int :=
  env.callResult function_name args

/-- Python `x or d` for the optional numeric arguments of `Contract.send`
(both `None` and `0` are falsy). -/
def pyOr (x : Option Int) (dflt : Int) : Int :=
  match x with
  | some v => if v = 0 then dflt else v
  | none => dflt

/-- `Contract.send`: the guard `if not signer:` raises the missing-signer
`ValueError` for every falsy signer — `None` and the empty string alike; with
a truthy one, derives the account, builds the transaction (`gas or 200000`,
`gas_price or self.provider.get_gas_price()`, nonce from the chain's
transaction count), signs it, submits the raw bytes and returns the hash —
never the decoded return value. -/
def Contract.send (env : DispatchEnv) (function_name : String) (args : List Int)
    (signer : Option String) (gas gas_price_arg : Option Int) (value : Int) :
    Except SendErr String :=
  match signer with
  | none => Except.error SendErr.missingSigner
  | some key =>
    if key.isEmpty then Except.error SendErr.missingSigner
    else
    let sender := env.addressOfKey key
    let tx : BuiltTx :=
      { sender := sender, gas := pyOr gas 200000,
        gasPrice := pyOr gas_price_arg env.gas_price,
        nonce := env.transaction_count sender, value := value }
    Except.ok (env.rawTxHash function_name args tx)

/-- Calling one generated wrapper: the view wrapper forwards to
`Contract.call`; the transaction wrapper forwards to `Contract.send` with its
`signer=None` default and `Contract.send`'s own defaults for the remaining
options. -/
def invoke (env : DispatchEnv) (b : Binding) (args : List Int) (signer : Option String) :
    Except SendErr CallResult :=
  if b.view then
    Except.ok (CallResult.value (Contract.call env b.entry.name args))
  else
    (Contract.send env b.entry.name args signer none none 0).map CallResult.txHash

/-! ## Concrete inputs used by witnesses and counterexamples -/

/-- ERC-20 `balanceOf` schema entry. -/
def balanceOfEntry : AbiEntry :=
  { type := some "function", name := "balanceOf", stateMutability := some "view" }

/-- ERC-20 `transfer` schema entry. -/
def transferEntry : AbiEntry :=
  { type := some "function", name := "transfer", stateMutability := some "nonpayable" }

/-- A small two-function schema. -/
def demoAbi : List AbiEntry := [balanceOfEntry, transferEntry]

/-- A schema declaring the same function name twice, where the name collides
with a pre-existing `Contract` attribute. -/
def dupCallAbi : List AbiEntry :=
  [{ type := some "function", name := "call", stateMutability := some "view" },
   { type := some "function", name := "call", stateMutability := some "view" }]

/-- A schema declaring the same (non-colliding) function name twice with
different mutabilities. -/
def dupTransferAbi : List AbiEntry :=
  [{ type := some "function", name := "transfer", stateMutability := some "nonpayable" },
   { type := some "function", name := "transfer", stateMutability := some "view" }]

/-- Concrete dispatcher environment for witnesses. -/
def demoDispatchEnv : DispatchEnv :=
  { callResult := fun _ _ => 42, gas_price := 5,
    transaction_count := fun _ => 3,
    addressOfKey := fun k => "0x" ++ k,
    rawTxHash := fun n _ _ => "0xtx" ++ n }

/-- Concrete account environment for witnesses. -/
def demoAccountEnv : AccountEnv :=
  { addressOf := fun k => "0x" ++ k, freshKey := "f1f2",
    encrypt := fun pk pw => pk ++ ":" ++ pw,
    raw := fun key tx => key ++ "|" ++ tx.recipient,
    hashOfRaw := fun r => "0xh" ++ r }

/-- A wallet as the generated-key branch of the constructor leaves it. -/
def demoWallet : WalletState :=
  { accountKey := "ab", private_key := some "ab", address := "0xab" }

/-- A transaction manager right after construction with the defaults
(`auto_nonce=True`, `confirm_blocks=1`). -/
def demoTxmState : TxmState :=
  { wallet := demoWallet, auto_nonce := true, confirm_blocks := 1,
    nonce_cache := none, pending_txs := [] }

/-- A transaction request whose nonce is unset. -/
def demoTx : TxRequest :=
  { recipient := "0xdest", value := 1000, gas := 21000, gasPrice := 50, nonce := none }

/-- A well-formed 64-hex-character private scalar. -/
def validKey64 : String :=
  "aaaaaaaaaaaaaaaaaaaaaaaaaaaaaaaaaaaaaaaaaaaaaaaaaaaaaaaaaaaaaaaa"

/-! # Theorems -/

/-! ## Connection manager: unfolding lemmas -/

/-- Unfolding lemma: attempt succeeds. -/
theorem connect_ok {env : String → Attempt} {s : PState} (h : s.idx < s.rpcUrls.length)
    (hok : env (s.rpcUrls[s.idx]) = .ok) :
    connect env s = ({ s with w3 := some (s.rpcUrls[s.idx]) }, none) := by
  rw [connect]
  simp only [h, dif_pos]
  rw [hok]

/-- Unfolding lemma: transport construction raises, `_w3` untouched, failover. -/
theorem connect_openFail {env : String → Attempt} {s : PState} (h : s.idx < s.rpcUrls.length)
    (hf : env (s.rpcUrls[s.idx]) = .openFail) :
    connect env s = failover env s := by
  rw [connect, failover]
  simp only [h, dif_pos]
  rw [hf]

/-- Unfolding lemma: liveness test fails after `_w3` was reassigned, failover
runs on the state holding the failed attempt's handle. -/
theorem connect_liveFail {env : String → Attempt} {s : PState} (h : s.idx < s.rpcUrls.length)
    (hf : env (s.rpcUrls[s.idx]) = .liveFail) :
    connect env s = failover env { s with w3 := some (s.rpcUrls[s.idx]) } := by
  rw [connect, failover]
  simp only [h, dif_pos]
  rw [hf]

/-- Unfolding lemma: empty endpoint list (index out of range). -/
theorem connect_oob {env : String → Attempt} {s : PState} (h : ¬ s.idx < s.rpcUrls.length) :
    connect env s = (s, some PErr.indexError) := by
  rw [connect]
  simp only [h, dif_neg, not_false_iff]

/-- Helper: if every endpoint from the current index up to (but excluding) `k`
fails and the endpoint at `k` succeeds, `connect` returns normally with index
`k` and a handle opened against endpoint `k`.  Induction on the distance
`k - idx`. -/
theorem connect_first_success (env : String → Attempt) :
    ∀ (d : Nat) (s : PState) (k : Nat) (u : String),
      k - s.idx = d → s.idx ≤ k → s.rpcUrls[k]? = some u → env u = .ok →
      (∀ j v, s.idx ≤ j → j < k → s.rpcUrls[j]? = some v → env v ≠ .ok) →
      connect env s = (⟨s.rpcUrls, k, some u⟩, none) := by
  intro d
  induction d with
  | zero =>
    intro s k u hd hle hget hok _
    obtain ⟨urls, i, w⟩ := s
    have hd2 : k - i = 0 := hd
    have hget2 : urls[k]? = some u := hget
    have hle2 : i ≤ k := hle
    have hik : k = i := by omega
    subst hik
    have hk : k < urls.length := (List.getElem?_eq_some.mp hget2).1
    have hu : urls[k] = u := by
      rw [List.getElem?_eq_getElem hk] at hget2
      exact Option.some.inj hget2
    have := @connect_ok env ⟨urls, k, w⟩ hk (by simpa [hu] using hok)
    simpa [hu] using this
  | succ n ih =>
    intro s k u hd hle hget hok hfail
    have hik : s.idx < k := by omega
    have hk : k < s.rpcUrls.length := (List.getElem?_eq_some.mp hget).1
    have hidx : s.idx < s.rpcUrls.length := lt_trans hik hk
    have hnext : s.idx + 1 < s.rpcUrls.length := by omega
    have hvfail : env (s.rpcUrls[s.idx]) ≠ .ok :=
      hfail s.idx (s.rpcUrls[s.idx]) le_rfl hik (List.getElem?_eq_getElem hidx)
    cases henv : env (s.rpcUrls[s.idx]) with
    | ok => exact absurd henv hvfail
    | openFail =>
      rw [connect_openFail hidx henv, failover, if_pos hnext]
      exact ih { s with idx := s.idx + 1 } k u (show k - (s.idx + 1) = n by omega)
        (show s.idx + 1 ≤ k by omega)
        hget hok (fun j v hj1 hj2 hv =>
          hfail j v (le_trans (Nat.le_succ s.idx) hj1) hj2 hv)
    | liveFail =>
      rw [connect_liveFail hidx henv, failover]
      simp only [if_pos hnext]
      exact ih { s with idx := s.idx + 1, w3 := some (s.rpcUrls[s.idx]) } k u
        (show k - (s.idx + 1) = n by omega) (show s.idx + 1 ≤ k by omega)
        hget hok (fun j v hj1 hj2 hv =>
          hfail j v (le_trans (Nat.le_succ s.idx) hj1) hj2 hv)

/-- Helper: if every endpoint from the current index onward fails, `connect`
escapes with the exhausted-endpoints error.  Induction on the distance to the
end of the list. -/
theorem connect_all_fail (env : String → Attempt) :
    ∀ (d : Nat) (s : PState), s.rpcUrls.length - s.idx = d →
      s.idx < s.rpcUrls.length →
      (∀ j v, s.idx ≤ j → s.rpcUrls[j]? = some v → env v ≠ .ok) →
      (connect env s).2 = some PErr.exhausted := by
  intro d
  induction d with
  | zero => intro s hd hidx _; omega
  | succ n ih =>
    intro s hd hidx hfail
    have hvfail : env (s.rpcUrls[s.idx]) ≠ .ok :=
      hfail s.idx (s.rpcUrls[s.idx]) le_rfl (List.getElem?_eq_getElem hidx)
    cases henv : env (s.rpcUrls[s.idx]) with
    | ok => exact absurd henv hvfail
    | openFail =>
      rw [connect_openFail hidx henv, failover]
      by_cases hnext : s.idx + 1 < s.rpcUrls.length
      · rw [if_pos hnext]
        exact ih { s with idx := s.idx + 1 }
          (show s.rpcUrls.length - (s.idx + 1) = n by omega)
          (show s.idx + 1 < s.rpcUrls.length from hnext)
          (fun j v hj hv => hfail j v (le_trans (Nat.le_succ s.idx) hj) hv)
      · rw [if_neg hnext]
    | liveFail =>
      rw [connect_liveFail hidx henv, failover]
      by_cases hnext : s.idx + 1 < s.rpcUrls.length
      · simp only [if_pos hnext]
        exact ih { s with idx := s.idx + 1, w3 := some (s.rpcUrls[s.idx]) }
          (show s.rpcUrls.length - (s.idx + 1) = n by omega)
          (show s.idx + 1 < s.rpcUrls.length from hnext)
          (fun j v hj hv => hfail j v (le_trans (Nat.le_succ s.idx) hj) hv)
      · simp only [if_neg hnext]

/-- Claim C1: for an endpoint list of length N, if the attempts at the first
N-1 endpoints fail and the attempt at the last one succeeds, `connect` from
the freshly initialised manager returns normally with `active_index = N - 1`
and a live handle for the last endpoint; if all N attempts fail, it escapes
with the all-endpoints-failed `ConnectionError`. -/
theorem C1_failover_reaches_last_or_exhausts (urls : List String)
    (env : String → Attempt) (hne : urls ≠ []) :
    (∀ u, (∀ j v, j + 1 < urls.length → urls[j]? = some v → env v ≠ .ok) →
        urls[urls.length - 1]? = some u → env u = .ok →
        connect env (initState urls) = (⟨urls, urls.length - 1, some u⟩, none))
    ∧ ((∀ v ∈ urls, env v ≠ .ok) →
        (connect env (initState urls)).2 = some PErr.exhausted) := by
  have hlen : 0 < urls.length := List.length_pos.mpr hne
  constructor
  · intro u hfail hget hok
    exact connect_first_success env (urls.length - 1) (initState urls) (urls.length - 1) u
      (show urls.length - 1 - 0 = urls.length - 1 by omega)
      (Nat.zero_le _) hget hok
      (fun j v _ hj hv => hfail j v (by omega) hv)
  · intro hfail
    exact connect_all_fail env urls.length (initState urls)
      (show urls.length - 0 = urls.length by omega) hlen
      (fun j v _ hv => hfail v (List.getElem?_mem hv))

/-- Witness for C1 on the spec's own scenario: two endpoints, the first fails,
the second succeeds; and the same two endpoints with every attempt failing. -/
theorem C1_failover_reaches_last_or_exhausts_witness :
    connect (fun v => if v = "good" then Attempt.ok else Attempt.openFail)
        (initState ["bad", "good"])
      = (⟨["bad", "good"], 1, some "good"⟩, none)
    ∧ (connect (fun _ => Attempt.openFail) (initState ["bad", "good"])).2
      = some PErr.exhausted := by
  constructor
  · exact (C1_failover_reaches_last_or_exhausts ["bad", "good"]
      (fun v => if v = "good" then Attempt.ok else Attempt.openFail)
      (by decide)).1 "good"
      (by
        intro j v hj hv
        have hj2 : j + 1 < 2 := hj
        have hj0 : j = 0 := by omega
        subst hj0
        have hv2 : v = "bad" := by
          have hb : (["bad", "good"] : List String)[0]? = some "bad" := rfl
          rw [hb] at hv
          exact (Option.some.inj hv).symm
        subst hv2
        decide)
      rfl (by decide)
  · exact (C1_failover_reaches_last_or_exhausts ["bad", "good"]
      (fun _ => Attempt.openFail) (by decide)).2 (fun v _ => by decide)

/-- Helper: one `connect` never shrinks the index, never changes the endpoint
list, and preserves the in-range invariant. -/
theorem connect_preserve (env : String → Attempt) :
    ∀ (d : Nat) (s : PState), s.rpcUrls.length - s.idx = d →
      (connect env s).1.rpcUrls = s.rpcUrls ∧ s.idx ≤ (connect env s).1.idx ∧
      (Inv s → Inv (connect env s).1) := by
  intro d
  induction d with
  | zero =>
    intro s hd
    have hno : ¬ s.idx < s.rpcUrls.length := by omega
    rw [connect_oob hno]
    exact ⟨rfl, le_rfl, fun h => h⟩
  | succ n ih =>
    intro s hd
    have hidx : s.idx < s.rpcUrls.length := by omega
    cases henv : env (s.rpcUrls[s.idx]) with
    | ok =>
      rw [connect_ok hidx henv]
      exact ⟨rfl, le_rfl, fun _ _ => hidx⟩
    | openFail =>
      rw [connect_openFail hidx henv, failover]
      by_cases hnext : s.idx + 1 < s.rpcUrls.length
      · rw [if_pos hnext]
        obtain ⟨h1, h2, h3⟩ := ih { s with idx := s.idx + 1 }
          (show s.rpcUrls.length - (s.idx + 1) = n by omega)
        exact ⟨h1, le_trans (Nat.le_succ _) h2, fun _ => h3 (fun _ => hnext)⟩
      · rw [if_neg hnext]
        exact ⟨rfl, le_rfl, fun h => h⟩
    | liveFail =>
      rw [connect_liveFail hidx henv, failover]
      by_cases hnext : s.idx + 1 < s.rpcUrls.length
      · simp only [if_pos hnext]
        obtain ⟨h1, h2, h3⟩ := ih { s with idx := s.idx + 1, w3 := some (s.rpcUrls[s.idx]) }
          (show s.rpcUrls.length - (s.idx + 1) = n by omega)
        exact ⟨h1, le_trans (Nat.le_succ _) h2, fun _ => h3 (fun _ => hnext)⟩
      · simp only [if_neg hnext]
        refine ⟨trivial, le_rfl, fun _ _ => hidx⟩

/-- Helper: one `failover` likewise. -/
theorem failover_preserve (env : String → Attempt) (s : PState) :
    (failover env s).1.rpcUrls = s.rpcUrls ∧ s.idx ≤ (failover env s).1.idx ∧
      (Inv s → Inv (failover env s).1) := by
  rw [failover]
  by_cases hnext : s.idx + 1 < s.rpcUrls.length
  · rw [if_pos hnext]
    obtain ⟨h1, h2, h3⟩ := connect_preserve env (s.rpcUrls.length - (s.idx + 1))
      { s with idx := s.idx + 1 } rfl
    exact ⟨h1, le_trans (Nat.le_succ _) h2, fun _ => h3 (fun _ => hnext)⟩
  · rw [if_neg hnext]
    exact ⟨rfl, le_rfl, fun h => h⟩

/-- Helper: either provider operation preserves list, monotonicity and
invariant. -/
theorem applyOp_preserve (o : POp) (s : PState) :
    (applyOp o s).rpcUrls = s.rpcUrls ∧ s.idx ≤ (applyOp o s).idx ∧
      (Inv s → Inv (applyOp o s)) := by
  cases o with
  | connectOp env => exact connect_preserve env (s.rpcUrls.length - s.idx) s rfl
  | failoverOp env => exact failover_preserve env s

/-- Claim C5: within one manager lifetime, across any sequence of `connect`
and `failover` operations, the endpoint list is fixed, `active_index` never
decreases (it is a `Nat`, so `0 ≤ active_index` is inherent), and
`active_index < len(endpoints)` holds whenever a live handle is installed. -/
theorem C5_index_in_range_and_monotone (ops : List POp) (s : PState) (hInv : Inv s) :
    (runOps ops s).rpcUrls = s.rpcUrls ∧ s.idx ≤ (runOps ops s).idx ∧
      Inv (runOps ops s) := by
  induction ops generalizing s with
  | nil => exact ⟨rfl, le_rfl, hInv⟩
  | cons o rest ih =>
    obtain ⟨h1, h2, h3⟩ := applyOp_preserve o s
    obtain ⟨g1, g2, g3⟩ := ih (applyOp o s) (h3 hInv)
    exact ⟨g1.trans h1, le_trans h2 g2, g3⟩

/-- Witness for C5: a fresh two-endpoint manager, one successful `connect`
followed by one `failover`. -/
theorem C5_index_in_range_and_monotone_witness :
    (runOps [POp.connectOp (fun _ => Attempt.ok), POp.failoverOp (fun _ => Attempt.ok)]
        (initState ["e1", "e2"])).rpcUrls = ["e1", "e2"]
    ∧ 0 ≤ (runOps [POp.connectOp (fun _ => Attempt.ok), POp.failoverOp (fun _ => Attempt.ok)]
        (initState ["e1", "e2"])).idx
    ∧ Inv (runOps [POp.connectOp (fun _ => Attempt.ok), POp.failoverOp (fun _ => Attempt.ok)]
        (initState ["e1", "e2"])) :=
  C5_index_in_range_and_monotone
    [POp.connectOp (fun _ => Attempt.ok), POp.failoverOp (fun _ => Attempt.ok)]
    (initState ["e1", "e2"]) (by decide)

/-- Counterexample to claim C9 as stated: with a previously installed live
handle and a single endpoint whose freshly opened transport fails the liveness
check, `connect` terminates (raising the exhausted error) with the failed
attempt's handle installed in `_w3` — the previous handle was replaced by the
failed attempt's handle. -/
theorem C9_counterexample :
    connect (fun _ => Attempt.liveFail) { rpcUrls := ["u1"], idx := 0, w3 := some "prev" }
      = ({ rpcUrls := ["u1"], idx := 0, w3 := some "u1" }, some PErr.exhausted)
    ∧ (some "u1" : Option String) ≠ some "prev" := by
  constructor
  · have h : (0 : Nat) < (["u1"] : List String).length := by decide
    rw [connect_liveFail h rfl, failover]
    simp only [if_neg (show ¬ (0 + 1 < (["u1"] : List String).length) by decide)]
    rfl
  · decide

/-- Claim C9 (amended): `connect` assigns the freshly opened handle to `_w3`
before the liveness check.  When the transport cannot even be constructed the
previous handle is left in place (and failover runs), but when construction
succeeds and the liveness check fails, the failed attempt's handle has already
replaced the previous one; in particular, with the failing endpoint last,
`connect` escapes with `_w3` holding the failed attempt's handle. -/
theorem C9_amended_handle_replacement (env : String → Attempt) (s : PState)
    (h : s.idx < s.rpcUrls.length) (hlast : ¬ s.idx + 1 < s.rpcUrls.length) :
    (env (s.rpcUrls[s.idx]) = .openFail → connect env s = (s, some PErr.exhausted))
    ∧ (env (s.rpcUrls[s.idx]) = .liveFail →
        connect env s = ({ s with w3 := some (s.rpcUrls[s.idx]) }, some PErr.exhausted)) := by
  constructor
  · intro henv
    rw [connect_openFail h henv, failover, if_neg hlast]
  · intro henv
    rw [connect_liveFail h henv, failover]
    simp only [if_neg hlast]

/-- Witness for the amended C9, at a one-endpoint manager with a previously
installed handle: a transport-construction failure preserves `_w3`, a liveness
failure replaces it. -/
theorem C9_amended_handle_replacement_witness :
    connect (fun _ => Attempt.openFail) { rpcUrls := ["x"], idx := 0, w3 := some "old" }
      = ({ rpcUrls := ["x"], idx := 0, w3 := some "old" }, some PErr.exhausted)
    ∧ connect (fun _ => Attempt.liveFail) { rpcUrls := ["x"], idx := 0, w3 := some "old" }
      = ({ rpcUrls := ["x"], idx := 0, w3 := some "x" }, some PErr.exhausted) :=
  ⟨(C9_amended_handle_replacement (fun _ => Attempt.openFail)
      { rpcUrls := ["x"], idx := 0, w3 := some "old" } (by decide) (by decide)).1 rfl,
   (C9_amended_handle_replacement (fun _ => Attempt.liveFail)
      { rpcUrls := ["x"], idx := 0, w3 := some "old" } (by decide) (by decide)).2 rfl⟩

/-! ## Schema dispatcher: helper lemmas on association lists -/

/-- Lookup at a cons cell whose key matches. -/
theorem lookup_cons_pos {β : Type} (a k : String) (v : β) (l : List (String × β))
    (h : (a == k) = true) : ((k, v) :: l).lookup a = some v := by
  simp [List.lookup, h]

/-- Lookup at a cons cell whose key differs. -/
theorem lookup_cons_neg {β : Type} (a k : String) (v : β) (l : List (String × β))
    (h : (a == k) = false) : ((k, v) :: l).lookup a = l.lookup a := by
  simp [List.lookup, h]

/-- A hit in the front list survives appending. -/
theorem lookup_append_some {β : Type} {l₁ : List (String × β)} (l₂ : List (String × β))
    {a : String} {b : β} (h : l₁.lookup a = some b) : (l₁ ++ l₂).lookup a = some b := by
  induction l₁ with
  | nil => simp [List.lookup] at h
  | cons p rest ih =>
    obtain ⟨k, v⟩ := p
    cases hk : a == k with
    | true =>
      rw [List.cons_append, lookup_cons_pos a k v _ hk]
      rw [lookup_cons_pos a k v _ hk] at h
      exact h
    | false =>
      rw [List.cons_append, lookup_cons_neg a k v _ hk]
      rw [lookup_cons_neg a k v _ hk] at h
      exact ih h

/-- A miss in the front list defers to the back list. -/
theorem lookup_append_none {β : Type} {l₁ : List (String × β)} (l₂ : List (String × β))
    {a : String} (h : l₁.lookup a = none) : (l₁ ++ l₂).lookup a = l₂.lookup a := by
  induction l₁ with
  | nil => rfl
  | cons p rest ih =>
    obtain ⟨k, v⟩ := p
    cases hk : a == k with
    | true =>
      rw [lookup_cons_pos a k v _ hk] at h
      exact absurd h (by simp)
    | false =>
      rw [List.cons_append, lookup_cons_neg a k v _ hk]
      rw [lookup_cons_neg a k v _ hk] at h
      exact ih h

/-- A lookup hit is a member of the association list. -/
theorem lookup_mem {β : Type} :
    ∀ {l : List (String × β)} {a : String} {b : β}, l.lookup a = some b → (a, b) ∈ l := by
  intro l
  induction l with
  | nil => intro a b h; simp [List.lookup] at h
  | cons p rest ih =>
    intro a b h
    obtain ⟨k, v⟩ := p
    cases hk : a == k with
    | true =>
      rw [lookup_cons_pos a k v _ hk] at h
      have hak : a = k := eq_of_beq hk
      subst hak
      obtain rfl : v = b := Option.some.inj h
      exact List.mem_cons_self (a, v) rest
    | false =>
      rw [lookup_cons_neg a k v _ hk] at h
      exact List.mem_cons_of_mem _ (ih h)

/-- If the key column does not contain `a`, lookup misses. -/
theorem keys_not_contains_lookup {β : Type} :
    ∀ {l : List (String × β)} {a : String},
      (l.map Prod.fst).contains a = false → l.lookup a = none := by
  intro l
  induction l with
  | nil => intro a _; rfl
  | cons p rest ih =>
    intro a h
    obtain ⟨k, v⟩ := p
    rw [List.map_cons, List.contains_cons] at h
    have h2 := Bool.or_eq_false_iff.mp h
    rw [lookup_cons_neg a k v _ h2.1]
    exact ih h2.2

/-- If the key column contains `a`, lookup hits. -/
theorem keys_contains_lookup {β : Type} :
    ∀ {l : List (String × β)} {a : String},
      (l.map Prod.fst).contains a = true → ∃ b, l.lookup a = some b := by
  intro l
  induction l with
  | nil => intro a h; simp at h
  | cons p rest ih =>
    intro a h
    obtain ⟨k, v⟩ := p
    rw [List.map_cons, List.contains_cons] at h
    cases hk : a == k with
    | true => exact ⟨v, lookup_cons_pos a k v _ hk⟩
    | false =>
      rw [hk, Bool.false_or] at h
      obtain ⟨b, hb⟩ := ih h
      exact ⟨b, by rw [lookup_cons_neg a k v _ hk]; exact hb⟩

/-! ## Schema dispatcher: behaviour of `generate_methods` -/

/-- Helper: every accumulated binding pairs its attribute name with its entry's
name and chooses the wrapper by the entry's declared mutability. -/
theorem generate_methods_wf (reserved : List String) :
    ∀ (abi : List AbiEntry) (bound : List (String × Binding)),
      (∀ p ∈ bound, p.1 = p.2.entry.name ∧
        p.2.view = is_view (p.2.entry.stateMutability.getD "")) →
      ∀ p ∈ generate_methods reserved abi bound,
        p.1 = p.2.entry.name ∧ p.2.view = is_view (p.2.entry.stateMutability.getD "") := by
  intro abi
  induction abi with
  | nil => intro bound hb p hp; exact hb p hp
  | cons item rest ih =>
    intro bound hb p hp
    rw [generate_methods] at hp
    by_cases ht : item.type ≠ some "function"
    · rw [if_pos ht] at hp
      exact ih bound hb p hp
    · rw [if_neg ht] at hp
      by_cases hskip : reserved.contains item.name || (bound.map Prod.fst).contains item.name
      · rw [if_pos hskip] at hp
        exact ih bound hb p hp
      · rw [if_neg hskip] at hp
        refine ih _ ?_ p hp
        intro q hq
        rcases List.mem_append.mp hq with hql | hqr
        · exact hb q hql
        · obtain rfl := List.mem_singleton.mp hqr
          exact ⟨rfl, rfl⟩

/-- Helper: bindings only accumulate — an attribute once set keeps its value
through the rest of the loop. -/
theorem generate_methods_mono (reserved : List String) :
    ∀ (abi : List AbiEntry) (bound : List (String × Binding)) (name : String) (b : Binding),
      bound.lookup name = some b →
      (generate_methods reserved abi bound).lookup name = some b := by
  intro abi
  induction abi with
  | nil => intro bound name b hb; exact hb
  | cons item rest ih =>
    intro bound name b hb
    rw [generate_methods]
    by_cases ht : item.type ≠ some "function"
    · rw [if_pos ht]
      exact ih bound name b hb
    · rw [if_neg ht]
      by_cases hskip : reserved.contains item.name || (bound.map Prod.fst).contains item.name
      · rw [if_pos hskip]
        exact ih bound name b hb
      · rw [if_neg hskip]
        exact ih _ name b (lookup_append_some _ hb)

/-- Helper: for a name that is not a pre-existing attribute and not yet bound,
name resolution after the loop yields the first function entry of the
remaining schema carrying that name (wrapped by its mutability), or nothing. -/
theorem generate_methods_find (reserved : List String) :
    ∀ (abi : List AbiEntry) (bound : List (String × Binding)) (name : String),
      reserved.contains name = false → bound.lookup name = none →
      (generate_methods reserved abi bound).lookup name =
        (abi.find? (fun e => e.type == some "function" && e.name == name)).map
          (fun e => { entry := e, view := is_view (e.stateMutability.getD "") }) := by
  intro abi
  induction abi with
  | nil =>
    intro bound name _ hnone
    simpa [generate_methods] using hnone
  | cons item rest ih =>
    intro bound name hres hnone
    rw [generate_methods]
    by_cases ht : item.type ≠ some "function"
    · rw [if_pos ht]
      have hpred : (item.type == some "function" && item.name == name) = false := by
        have : (item.type == some "function") = false := by
          simpa using ht
        simp [this]
      rw [List.find?_cons_of_neg (p := fun e => e.type == some "function" && e.name == name)
        rest (by simp [hpred]), ih bound name hres hnone]
    · rw [if_neg ht]
      have htype : item.type = some "function" := not_not.mp ht
      by_cases hname : item.name = name
      · have hpred : (item.type == some "function" && item.name == name) = true := by
          simp [htype, hname]
        rw [List.find?_cons_of_pos (p := fun e => e.type == some "function" && e.name == name)
          rest hpred]
        by_cases hskip : reserved.contains item.name ||
            (bound.map Prod.fst).contains item.name
        · exfalso
          rw [hname, hres, Bool.false_or] at hskip
          obtain ⟨b, hb⟩ := keys_contains_lookup hskip
          rw [hb] at hnone
          exact Option.noConfusion hnone
        · rw [if_neg hskip]
          refine generate_methods_mono reserved rest _ name _ ?_
          rw [lookup_append_none _ hnone]
          exact lookup_cons_pos name item.name _ _ (by simp [hname])
      · have hpred : (item.type == some "function" && item.name == name) = false := by
          simp [hname]
        rw [List.find?_cons_of_neg _ (by simp [hpred])]
        by_cases hskip : reserved.contains item.name ||
            (bound.map Prod.fst).contains item.name
        · rw [if_pos hskip]
          exact ih bound name hres hnone
        · rw [if_neg hskip]
          refine ih _ name hres ?_
          rw [lookup_append_none _ hnone]
          exact (lookup_cons_neg name item.name _ _ (by simp [Ne.symm hname])).trans rfl

/-- Helper: a name that is a pre-existing attribute is never bound by the
loop. -/
theorem generate_methods_reserved_skip (reserved : List String) :
    ∀ (abi : List AbiEntry) (bound : List (String × Binding)) (name : String),
      reserved.contains name = true → bound.lookup name = none →
      (generate_methods reserved abi bound).lookup name = none := by
  intro abi
  induction abi with
  | nil => intro bound name _ hnone; exact hnone
  | cons item rest ih =>
    intro bound name hres hnone
    rw [generate_methods]
    by_cases ht : item.type ≠ some "function"
    · rw [if_pos ht]
      exact ih bound name hres hnone
    · rw [if_neg ht]
      by_cases hskip : reserved.contains item.name || (bound.map Prod.fst).contains item.name
      · rw [if_pos hskip]
        exact ih bound name hres hnone
      · rw [if_neg hskip]
        have hname : item.name ≠ name := by
          intro he
          rw [he, hres] at hskip
          exact hskip (by simp)
        refine ih _ name hres ?_
        rw [lookup_append_none _ hnone]
        exact (lookup_cons_neg name item.name _ _ (by simp [Ne.symm hname])).trans rfl

/-- Claim C2: every function entry the dispatcher binds is routed by its
mutability classification — a `pure`/`view` entry gets the read path, which
needs no signer and returns the decoded call result, and every other entry
gets the write path, which returns a transaction hash when a (truthy) signer
is supplied and fails with the missing-signer error when invoked with no
signer (the falsy empty string counts as no signer, as in the source's
`if not signer:`). -/
theorem C2_mutability_routes_read_or_write (reserved : List String) (abi : List AbiEntry)
    (name : String) (b : Binding)
    (hb : (generate_methods reserved abi []).lookup name = some b) :
    b.entry.name = name ∧
    b.view = is_view (b.entry.stateMutability.getD "") ∧
    (is_view (b.entry.stateMutability.getD "") = true →
      ∀ (env : DispatchEnv) (args : List Int),
        invoke env b args none = Except.ok (CallResult.value (env.callResult name args))) ∧
    (is_view (b.entry.stateMutability.getD "") = false →
      (∀ (env : DispatchEnv) (args : List Int),
        invoke env b args none = Except.error SendErr.missingSigner) ∧
      (∀ (env : DispatchEnv) (args : List Int),
        invoke env b args (some "") = Except.error SendErr.missingSigner) ∧
      (∀ (env : DispatchEnv) (args : List Int) (key : String), key.isEmpty = false →
        invoke env b args (some key)
          = Except.ok (CallResult.txHash (env.rawTxHash b.entry.name args
              { sender := env.addressOfKey key, gas := pyOr none 200000,
                gasPrice := pyOr none env.gas_price,
                nonce := env.transaction_count (env.addressOfKey key),
                value := 0 })))) := by
  have hmem := lookup_mem hb
  obtain ⟨hn, hv⟩ := generate_methods_wf reserved abi []
    (by intro p hp; exact absurd hp (List.not_mem_nil p)) (name, b) hmem
  have hn2 : name = b.entry.name := hn
  have hv2 : b.view = is_view (b.entry.stateMutability.getD "") := hv
  refine ⟨hn2.symm, hv2, ?_, ?_⟩
  · intro hview env args
    have hbv : b.view = true := hv2.trans hview
    rw [hn2]
    simp [invoke, hbv, Contract.call]
  · intro hview
    have hbv : b.view = false := hv2.trans hview
    refine ⟨?_, ?_, ?_⟩
    · intro env args
      simp [invoke, hbv, Contract.send, Except.map]
    · intro env args
      simp [invoke, hbv, Contract.send, Except.map, String.isEmpty]
    · intro env args key hkey
      simp [invoke, hbv, Contract.send, Except.map, hkey]

/-- Witness for C2 on the spec's own schema: `balanceOf` (view) reads without
a signer, `transfer` (nonpayable) needs a signer and returns a hash. -/
theorem C2_mutability_routes_read_or_write_witness :
    invoke demoDispatchEnv { entry := balanceOfEntry, view := true } [5] none
      = Except.ok (CallResult.value 42)
    ∧ invoke demoDispatchEnv { entry := transferEntry, view := false } [1, 2] none
      = Except.error SendErr.missingSigner
    ∧ invoke demoDispatchEnv { entry := transferEntry, view := false } [1, 2] (some "")
      = Except.error SendErr.missingSigner
    ∧ invoke demoDispatchEnv { entry := transferEntry, view := false } [1, 2] (some "ab")
      = Except.ok (CallResult.txHash (demoDispatchEnv.rawTxHash "transfer" [1, 2]
          { sender := demoDispatchEnv.addressOfKey "ab", gas := pyOr none 200000,
            gasPrice := pyOr none demoDispatchEnv.gas_price,
            nonce := demoDispatchEnv.transaction_count (demoDispatchEnv.addressOfKey "ab"),
            value := 0 })) := by
  refine ⟨?_, ?_, ?_, ?_⟩
  · have := (C2_mutability_routes_read_or_write contractReserved demoAbi "balanceOf"
      { entry := balanceOfEntry, view := true } (by decide)).2.2.1 (by decide)
      demoDispatchEnv [5]
    simpa [demoDispatchEnv] using this
  · exact ((C2_mutability_routes_read_or_write contractReserved demoAbi "transfer"
      { entry := transferEntry, view := false } (by decide)).2.2.2 (by decide)).1
      demoDispatchEnv [1, 2]
  · exact ((C2_mutability_routes_read_or_write contractReserved demoAbi "transfer"
      { entry := transferEntry, view := false } (by decide)).2.2.2 (by decide)).2.1
      demoDispatchEnv [1, 2]
  · exact ((C2_mutability_routes_read_or_write contractReserved demoAbi "transfer"
      { entry := transferEntry, view := false } (by decide)).2.2.2 (by decide)).2.2
      demoDispatchEnv [1, 2] "ab" (by decide)

/-- Counterexample to claim C6 as stated: a schema declaring the same function
name twice is not always bound to its first entry — when the duplicated name
collides with a pre-existing attribute (here `call`), method generation binds
no entry at all and attribute lookup still finds the pre-existing method. -/
theorem C6_counterexample :
    dupCallAbi.map AbiEntry.name = ["call", "call"]
    ∧ dupCallAbi.map AbiEntry.type = [some "function", some "function"]
    ∧ (generate_methods contractReserved dupCallAbi []).lookup "call" = none
    ∧ getattrContract contractReserved (generate_methods contractReserved dupCallAbi []) "call"
      = some (Attr.preexisting "call") := by
  refine ⟨rfl, rfl, by decide, by decide⟩

/-- Claim C6 (amended): method generation never crashes, and for a duplicated
name that does not collide with a pre-existing attribute of the dispatcher it
binds the first function entry with that name in schema order — all later
same-named entries are unreachable by name; a duplicated name that does
collide binds no entry at all. -/
theorem C6_amended_first_entry_wins (reserved : List String) (abi : List AbiEntry)
    (name : String) (hres : reserved.contains name = false) :
    (generate_methods reserved abi []).lookup name =
      (abi.find? (fun e => e.type == some "function" && e.name == name)).map
        (fun e => { entry := e, view := is_view (e.stateMutability.getD "") }) :=
  generate_methods_find reserved abi [] name hres rfl

/-- Witness for the amended C6: a schema with `transfer` declared twice binds
the first declaration (the `nonpayable` one). -/
theorem C6_amended_first_entry_wins_witness :
    (generate_methods contractReserved dupTransferAbi []).lookup "transfer"
      = some { entry := { type := some "function", name := "transfer",
                          stateMutability := some "nonpayable" }, view := false } := by
  rw [C6_amended_first_entry_wins contractReserved dupTransferAbi "transfer" (by decide)]
  decide

/-- Claim C10: a schema function entry whose name equals a pre-existing
attribute of the contract object is silently skipped — no wrapper is bound for
that name, and attribute lookup still yields the pre-existing attribute, so
the schema function is not invocable by attribute name. -/
theorem C10_preexisting_attribute_names_skipped (reserved : List String)
    (abi : List AbiEntry) (name : String) (h : reserved.contains name = true) :
    (generate_methods reserved abi []).lookup name = none ∧
    getattrContract reserved (generate_methods reserved abi []) name
      = some (Attr.preexisting name) := by
  have hnone := generate_methods_reserved_skip reserved abi [] name h rfl
  refine ⟨hnone, ?_⟩
  rw [getattrContract, hnone, if_pos h]

/-- Witness for C10: a schema entry named `call` is skipped and `call` still
resolves to the pre-existing `Contract.call` method. -/
theorem C10_preexisting_attribute_names_skipped_witness :
    (generate_methods contractReserved dupCallAbi []).lookup "call" = none ∧
    getattrContract contractReserved (generate_methods contractReserved dupCallAbi []) "call"
      = some (Attr.preexisting "call") :=
  C10_preexisting_attribute_names_skipped contractReserved dupCallAbi "call" (by decide)

/-! ## Transaction pipeline and wallet claims -/

/-- Counterexample to claim C3 as stated: a transaction whose nonce field is
unset is signed with the nonce still unset — `send_transaction` assigns no
nonce before signing; and `get_nonce`'s default fetch path, which the claim
says supplies the next nonce, itself raises the `self.provider.web3`
`AttributeError` rather than fetching a transaction count. -/
theorem C3_counterexample :
    demoTx.nonce = none
    ∧ (send_transaction demoAccountEnv demoTxmState demoTx).2.1.tx = demoTx
    ∧ (send_transaction demoAccountEnv demoTxmState demoTx).2.1.tx.nonce = none
    ∧ get_nonce demoTxmState false = Except.error providerWeb3Error :=
  ⟨rfl, rfl, rfl, rfl⟩

/-- Claim C3 (amended): `send_transaction` performs no nonce assignment — the
transaction is signed exactly as supplied, unset nonce included, after which
submission raises `AttributeError` at `self.provider.web3`.  The next-nonce
computation exists separately as `get_nonce`, but `send_transaction` never
invokes it, and `get_nonce`'s own default-mode fetch raises the same
`AttributeError` instead of returning the chain's transaction count; only its
cached paths (`use_pending` with a cache set, or `auto_nonce` off) return a
value. -/
theorem C3_amended_no_nonce_assignment (env : AccountEnv) (s : TxmState) (tx : TxRequest) :
    (send_transaction env s tx).2.1.tx = tx
    ∧ (s.auto_nonce = true → get_nonce s false = Except.error providerWeb3Error)
    ∧ (s.auto_nonce = true → ∀ n, s.nonce_cache = some n →
        get_nonce s true = Except.ok n)
    ∧ (s.auto_nonce = false → get_nonce s false = Except.ok (s.nonce_cache.getD 0)) := by
  refine ⟨rfl, ?_, ?_, ?_⟩
  · intro h
    simp [get_nonce, h]
  · intro h n hc
    simp [get_nonce, h, hc]
  · intro h
    simp [get_nonce, h]

/-- Witness for the amended C3, at a freshly constructed manager and an
unset-nonce transaction, in each nonce mode. -/
theorem C3_amended_no_nonce_assignment_witness :
    (send_transaction demoAccountEnv demoTxmState demoTx).2.1.tx = demoTx
    ∧ get_nonce demoTxmState false = Except.error providerWeb3Error
    ∧ get_nonce { demoTxmState with nonce_cache := some 9 } true = Except.ok 9
    ∧ get_nonce { demoTxmState with auto_nonce := false } false
      = Except.ok (({ demoTxmState with auto_nonce := false } : TxmState).nonce_cache.getD 0) :=
  ⟨(C3_amended_no_nonce_assignment demoAccountEnv demoTxmState demoTx).1,
   (C3_amended_no_nonce_assignment demoAccountEnv demoTxmState demoTx).2.1 rfl,
   (C3_amended_no_nonce_assignment demoAccountEnv
     { demoTxmState with nonce_cache := some 9 } demoTx).2.2.1 rfl 9 rfl,
   (C3_amended_no_nonce_assignment demoAccountEnv
     { demoTxmState with auto_nonce := false } demoTx).2.2.2 rfl⟩

/-- Claim C4 describes the intended behaviour (the class docstring itself says
`send_transaction` signs, sends, and returns the hash, and `__init__` sets up
`pending_txs` and `TransactionStatus` for tracking), and the code breaks it:
after signing, `self.provider.web3.eth.send_raw_transaction(...)` raises
`AttributeError` (`Provider` defines only `w3`), so nothing is submitted, no
hash is returned, and `pending_txs` — which no method of the class ever
writes — stays unchanged (here empty).  This theorem evaluates the code at the
failing input: the signed transaction is computed, then the error escapes with
the manager state untouched. -/
theorem C4_send_transaction_attribute_error :
    send_transaction demoAccountEnv demoTxmState demoTx
      = (demoTxmState,
         { tx := demoTx,
           rawTransaction := demoAccountEnv.raw demoTxmState.wallet.accountKey demoTx,
           hash := demoAccountEnv.hashOfRaw
             (demoAccountEnv.raw demoTxmState.wallet.accountKey demoTx) },
         Except.error providerWeb3Error)
    ∧ (send_transaction demoAccountEnv demoTxmState demoTx).1.pending_txs = [] :=
  ⟨rfl, rfl⟩

/-- Counterexample to claim C7 as stated: the 3-character hex string `abc` is
not a well-formed secret of the expected length, yet validation accepts it and
the constructor's own checks succeed — no `InvalidKey` failure (any later
rejection would come from the external key library, not this code). -/
theorem C7_counterexample :
    validate_key "abc" = Except.ok ()
    ∧ "abc".length = 3
    ∧ Wallet.init demoAccountEnv (some "abc")
      = Except.ok { accountKey := "abc", private_key := none,
                    address := demoAccountEnv.addressOf "abc" } :=
  ⟨rfl, rfl, rfl⟩

/-- Claim C7 (amended): the constructor's validation accepts exactly the
strings made of hex characters, with no length requirement — a wrong-length
hex string passes and construction proceeds; a (nonempty) string with any
non-hex character fails with the `InvalidKey` `ValueError`. -/
theorem C7_amended_hex_chars_only (env : AccountEnv) (k : String) (hne : ¬ k.isEmpty = true) :
    (k.toList.all isHexChar = true →
      Wallet.init env (some k)
        = Except.ok { accountKey := k, private_key := none, address := env.addressOf k })
    ∧ (k.toList.all isHexChar = false →
      Wallet.init env (some k) = Except.error "Key must be a valid hexadecimal string.") := by
  have hempty : k.isEmpty = false := by
    cases hk : k.isEmpty
    · rfl
    · exact absurd hk hne
  constructor
  · intro hall
    have hv : validate_key k = Except.ok () := by
      rw [validate_key, if_pos hall]
    simp [Wallet.init, hempty, hv]
  · intro hall
    have hv : validate_key k = Except.error "Key must be a valid hexadecimal string." := by
      rw [validate_key, if_neg (by rw [hall]; exact Bool.false_ne_true)]
    simp [Wallet.init, hempty, hv]

/-- Witness for the amended C7: the wrong-length hex key `abc` is accepted,
the non-hex key `zz` is rejected with the validator's `ValueError`. -/
theorem C7_amended_hex_chars_only_witness :
    Wallet.init demoAccountEnv (some "abc")
      = Except.ok { accountKey := "abc", private_key := none,
                    address := demoAccountEnv.addressOf "abc" }
    ∧ Wallet.init demoAccountEnv (some "zz")
      = Except.error "Key must be a valid hexadecimal string." :=
  ⟨(C7_amended_hex_chars_only demoAccountEnv "abc" (by decide)).1 (by decide),
   (C7_amended_hex_chars_only demoAccountEnv "zz" (by decide)).2 (by decide)⟩

/-- Claim C8 describes the intended behaviour, and the code breaks it: for a
wallet constructed from an explicit private scalar, `__init__` never assigns
`self.private_key` (the assignment on source line 16 is commented out), so
`export_key` raises `AttributeError` instead of producing the keystore —
while a freshly generated wallet, whose branch does assign the attribute,
exports fine.  This theorem evaluates the code at the failing input. -/
theorem C8_export_key_attribute_error :
    Wallet.init demoAccountEnv (some validKey64)
      = Except.ok { accountKey := validKey64, private_key := none,
                    address := demoAccountEnv.addressOf validKey64 }
    ∧ export_key demoAccountEnv
        { accountKey := validKey64, private_key := none,
          address := demoAccountEnv.addressOf validKey64 } "pw" "keystore.json"
      = Except.error "AttributeError: Wallet object has no attribute private_key"
    ∧ export_key demoAccountEnv
        { accountKey := demoAccountEnv.freshKey,
          private_key := some demoAccountEnv.freshKey,
          address := demoAccountEnv.addressOf demoAccountEnv.freshKey } "pw" "keystore.json"
      = Except.ok (demoAccountEnv.encrypt demoAccountEnv.freshKey "pw", "keystore.json") :=
  ⟨rfl, rfl, rfl⟩

end Pychain
